import Mathlib

/-!
Shallow embedding of the Prisma Postgres Terraform provider
(`internal/client/client.go` and the `internal/provider` package).

The HTTP client is modelled by making the remote side explicit: every
operation takes an `HttpOutcome` argument standing for what the network
delivered (transport failure, body-read failure, or a response with a
status code and a raw body), and JSON decoding of a response body into a
Go target struct is an explicit `String → Option α` argument standing for
`encoding/json.Unmarshal`.  Machine-level details that the claims do not
touch (context cancellation, the concrete `http.Client`) are outside the
model; everything else follows the Go source line by line.
-/

namespace PrismaProvider

/-- Client configuration, from `client.Client` (client.go): the immutable
fields `serviceToken`, `userAgent`, `baseURL` used by `doRequest`. -/
structure Client where
  serviceToken : String
  userAgent : String
  baseURL : String
deriving Repr, DecidableEq

/-- An HTTP response as seen by `doRequest` after `io.ReadAll`: the status
code and the raw body bytes (as a string). -/
structure HttpResponse where
  statusCode : Nat
  body : String
deriving Repr, DecidableEq

/-- What the network delivered for one request: `c.httpClient.Do` failed
(`transportFailure`), `io.ReadAll(resp.Body)` failed (`readFailure`), or a
response arrived (`success`). -/
inductive HttpOutcome where
  | transportFailure (msg : String)
  | readFailure (msg : String)
  | success (resp : HttpResponse)
deriving Repr, DecidableEq

/-- The errors `doRequest` can return, one constructor per `return` site in
client.go: the wrapped transport error (`fmt.Errorf("request failed: %w")`),
the wrapped body-read error, the structured `client.APIError` value
(status code, `http.StatusText` message, raw body), and the wrapped JSON
decode error (`fmt.Errorf("failed to decode response: %w")`). -/
inductive ReqError where
  | transportError (msg : String)
  | readError (msg : String)
  | apiError (statusCode : Nat) (message : String) (body : String)
  | decodeError (msg : String)
deriving Repr, DecidableEq

/-- Modelled from Go's standard library `net/http.StatusText` (not part of
this repository): the human-readable text for the common status codes; the
real function returns `""` for codes it does not know, as here. -/
def statusText : Nat → String
  | 400 => "Bad Request"
  | 401 => "Unauthorized"
  | 402 => "Payment Required"
  | 403 => "Forbidden"
  | 404 => "Not Found"
  | 405 => "Method Not Allowed"
  | 408 => "Request Timeout"
  | 409 => "Conflict"
  | 410 => "Gone"
  | 422 => "Unprocessable Entity"
  | 429 => "Too Many Requests"
  | 500 => "Internal Server Error"
  | 501 => "Not Implemented"
  | 502 => "Bad Gateway"
  | 503 => "Service Unavailable"
  | 504 => "Gateway Timeout"
  | _ => ""

/-- Embedding of `APIError.Error()` from client.go, and the `Error()` strings of the
wrapped local errors (each wrap already carries its prefix in `msg`). -/
def ReqError.errorString : ReqError → String
  | .transportError msg => msg
  | .readError msg => msg
  | .apiError sc msg _ => "Prisma API error (status " ++ toString sc ++ "): " ++ msg
  | .decodeError msg => msg

/-- The Go pattern `apiErr, ok := err.(*client.APIError); ok && apiErr.StatusCode == 404`
used by every Read and Delete in the provider package. -/
def ReqError.is404 : ReqError → Bool
  | .apiError sc _ _ => sc == 404
  | _ => false

/-- An outgoing HTTP request as built by `doRequest`: method, full URL,
header list, and the marshalled JSON body when one was supplied. -/
structure Request where
  method : String
  url : String
  headers : List (String × String)
  body : Option String
deriving Repr, DecidableEq

/-- Go `http.Header.Set`: replace any existing entry for the key, else
append a new one. -/
def headerSet (hs : List (String × String)) (key value : String) : List (String × String) :=
  if hs.any (fun p => p.1 == key) then
    hs.map (fun p => if p.1 == key then (key, value) else p)
  else
    hs ++ [(key, value)]

/-- The request constructed by `doRequest` (client.go lines 90–98):
`http.NewRequestWithContext` with URL `c.baseURL+path`, followed by the
four `req.Header.Set` calls on the initially empty header map. -/
def buildRequest (c : Client) (method path : String) (body : Option String) : Request :=
  { method := method
    url := c.baseURL ++ path
    headers :=
      headerSet (headerSet (headerSet (headerSet []
        "Authorization" ("Bearer " ++ c.serviceToken))
        "Content-Type" "application/json")
        "Accept" "application/json")
        "User-Agent" c.userAgent
    body := body }

/-- Embedding of `Client.doRequest` from client.go, returning both the request it sent
and its result.  `body` is the already-marshalled JSON body (the structs
marshalled here contain only strings and bools, so `json.Marshal` cannot
fail on them); `result` is `some decode` when the Go caller passes a
non-nil decode target and `none` when it passes `nil`.  `.ok (some v)`
means the target was filled by `json.Unmarshal`; `.ok none` means the
target was left at its zero value (nil target or empty body), matching the
Go condition `result != nil && len(respBody) > 0`. -/
def doRequest (c : Client) (method path : String) (body : Option String)
    (result : Option (String → Option α)) (outcome : HttpOutcome) :
    Request × Except ReqError (Option α) :=
  let req := buildRequest c method path body
  match outcome with
  | .transportFailure msg => (req, .error (.transportError ("request failed: " ++ msg)))
  | .readFailure msg => (req, .error (.readError ("failed to read response body: " ++ msg)))
  | .success resp =>
    if resp.statusCode ≥ 400 then
      (req, .error (.apiError resp.statusCode (statusText resp.statusCode) resp.body))
    else
      match result with
      | some decode =>
        if resp.body.length > 0 then
          match decode resp.body with
          | some v => (req, .ok (some v))
          | none => (req, .error (.decodeError "failed to decode response"))
        else
          (req, .ok none)
      | none => (req, .ok none)

/-- Embedding of `client.ProjectRef`. -/
structure ProjectRef where
  id : String
  name : String
deriving Repr, DecidableEq, Inhabited

/-- Embedding of `client.DatabaseRef`. -/
structure DatabaseRef where
  id : String
  name : String
deriving Repr, DecidableEq, Inhabited

/-- Embedding of `client.WorkspaceRef`. -/
structure WorkspaceRef where
  id : String
  name : String
deriving Repr, DecidableEq, Inhabited

/-- Embedding of `client.Region` (client.go): id, type ("region"), name, and
availability status. -/
structure Region where
  id : String
  type : String
  name : String
  status : String
deriving Repr, DecidableEq, Inhabited

/-- Embedding of `client.DirectConnection`. -/
structure DirectConnection where
  host : String
  pass : String
  user : String
deriving Repr, DecidableEq, Inhabited

/-- Embedding of `client.APIKey`. -/
structure APIKey where
  id : String
  type : String
  name : String
  createdAt : String
  connectionString : String
deriving Repr, DecidableEq, Inhabited

/-- Embedding of `client.Database` (client.go): the credentials fields (`apiKeys`,
`connectionString`, `directConnection`) are populated only on create. -/
structure Database where
  id : String
  type : String
  name : String
  status : String
  createdAt : String
  isDefault : Bool
  project : Option ProjectRef
  region : Option Region
  apiKeys : List APIKey
  connectionString : String
  directConnection : Option DirectConnection
deriving Repr, DecidableEq, Inhabited

/-- Embedding of `client.Project`. -/
structure Project where
  id : String
  type : String
  name : String
  createdAt : String
  workspace : Option WorkspaceRef
  database : Option Database
deriving Repr, DecidableEq, Inhabited

/-- Embedding of `client.Connection`: `connectionString`, `host`, `user`, `pass` are
populated only on create. -/
structure Connection where
  id : String
  type : String
  name : String
  createdAt : String
  database : Option DatabaseRef
  connectionString : String
  host : String
  user : String
  pass : String
deriving Repr, DecidableEq, Inhabited

/-- Embedding of `client.Pagination`. -/
structure Pagination where
  nextCursor : String
  hasMore : Bool
deriving Repr, DecidableEq, Inhabited

/-- Modelled from Go `encoding/json` string encoding (standard library):
quote the string, escaping quotes and backslashes.  (The real encoder also
escapes control and HTML characters; no claim depends on those cases.) -/
def jsonEscapeChar (c : Char) : String :=
  if c = '"' then "\\\"" else if c = '\\' then "\\\\" else String.singleton c

/-- JSON string literal for `s`. -/
def jsonQuote (s : String) : String :=
  "\"" ++ String.join (s.toList.map jsonEscapeChar) ++ "\""

/-- JSON boolean literal. -/
def jsonBool (b : Bool) : String := if b then "true" else "false"

/-- Embedding of `client.CreateProjectRequest`. -/
structure CreateProjectRequest where
  name : String
  createDatabase : Bool
deriving Repr, DecidableEq, Inhabited

/-- Embedding of `json.Marshal` of `CreateProjectRequest` (fields in declaration order,
no omitempty tags). -/
def CreateProjectRequest.toJson (r : CreateProjectRequest) : String :=
  "\x7b\"name\":" ++ jsonQuote r.name ++
    ",\"createDatabase\":" ++ jsonBool r.createDatabase ++ "\x7d"

/-- Embedding of `client.CreateDatabaseRequest`: the `region` field carries the
`omitempty` JSON tag, `name` and `isDefault` do not. -/
structure CreateDatabaseRequest where
  name : String
  region : String
  isDefault : Bool
deriving Repr, DecidableEq, Inhabited

/-- Embedding of `json.Marshal` of `CreateDatabaseRequest`: `region,omitempty` means
the field is dropped from the object exactly when the string is empty. -/
def CreateDatabaseRequest.toJson (r : CreateDatabaseRequest) : String :=
  "\x7b\"name\":" ++ jsonQuote r.name ++
    (if r.region = "" then "" else ",\"region\":" ++ jsonQuote r.region) ++
    ",\"isDefault\":" ++ jsonBool r.isDefault ++ "\x7d"

/-- Embedding of `client.CreateConnectionRequest`. -/
structure CreateConnectionRequest where
  name : String
deriving Repr, DecidableEq, Inhabited

/-- Embedding of `json.Marshal` of `CreateConnectionRequest`. -/
def CreateConnectionRequest.toJson (r : CreateConnectionRequest) : String :=
  "\x7b\"name\":" ++ jsonQuote r.name ++ "\x7d"

/-- Embedding of `client.CreateProjectResponse` / `client.GetProjectResponse` both wrap
a `Project` under `data`; one type suffices for the model. -/
structure ProjectResponse where
  data : Project
deriving Repr, DecidableEq, Inhabited

/-- Embedding of `client.CreateDatabaseResponse` / `client.GetDatabaseResponse`. -/
structure DatabaseResponse where
  data : Database
deriving Repr, DecidableEq, Inhabited

/-- Embedding of `client.CreateConnectionResponse`. -/
structure ConnectionResponse where
  data : Connection
deriving Repr, DecidableEq, Inhabited

/-- Embedding of `client.ListConnectionsResponse`. -/
structure ListConnectionsResponse where
  data : List Connection
  pagination : Option Pagination
deriving Repr, DecidableEq, Inhabited

/-- Embedding of `client.ListRegionsResponse`. -/
structure ListRegionsResponse where
  data : List Region
deriving Repr, DecidableEq, Inhabited

/-- Embedding of `Client.CreateProject`: POST /v1/projects with the marshalled request,
returning `resp.Data` (the zero-value `Project` if the body was empty). -/
def Client.createProject (c : Client) (name : String) (createDatabase : Bool)
    (decode : String → Option ProjectResponse) (outcome : HttpOutcome) :
    Request × Except ReqError Project :=
  let r := doRequest c "POST" "/v1/projects"
    (some (CreateProjectRequest.toJson ⟨name, createDatabase⟩)) (some decode) outcome
  (r.1, r.2.map (fun o => (o.getD default).data))

/-- Embedding of `Client.GetProject`: GET /v1/projects/(id). -/
def Client.getProject (c : Client) (id : String)
    (decode : String → Option ProjectResponse) (outcome : HttpOutcome) :
    Request × Except ReqError Project :=
  let r := doRequest c "GET" ("/v1/projects/" ++ id) none (some decode) outcome
  (r.1, r.2.map (fun o => (o.getD default).data))

/-- Embedding of `Client.DeleteProject`: DELETE /v1/projects/(id) with a nil decode
target. -/
def Client.deleteProject (c : Client) (id : String) (outcome : HttpOutcome) :
    Request × Except ReqError Unit :=
  let r := doRequest (α := Unit) c "DELETE" ("/v1/projects/" ++ id) none none outcome
  (r.1, r.2.map (fun _ => ()))

/-- Embedding of `Client.CreateDatabase`: POST /v1/projects/(projectID)/databases with
`IsDefault: false` hard-coded. -/
def Client.createDatabase (c : Client) (projectID name region : String)
    (decode : String → Option DatabaseResponse) (outcome : HttpOutcome) :
    Request × Except ReqError Database :=
  let r := doRequest c "POST" ("/v1/projects/" ++ projectID ++ "/databases")
    (some (CreateDatabaseRequest.toJson ⟨name, region, false⟩)) (some decode) outcome
  (r.1, r.2.map (fun o => (o.getD default).data))

/-- Embedding of `Client.GetDatabase`: GET /v1/databases/(id). -/
def Client.getDatabase (c : Client) (id : String)
    (decode : String → Option DatabaseResponse) (outcome : HttpOutcome) :
    Request × Except ReqError Database :=
  let r := doRequest c "GET" ("/v1/databases/" ++ id) none (some decode) outcome
  (r.1, r.2.map (fun o => (o.getD default).data))

/-- Embedding of `Client.DeleteDatabase`: DELETE /v1/databases/(id). -/
def Client.deleteDatabase (c : Client) (id : String) (outcome : HttpOutcome) :
    Request × Except ReqError Unit :=
  let r := doRequest (α := Unit) c "DELETE" ("/v1/databases/" ++ id) none none outcome
  (r.1, r.2.map (fun _ => ()))

/-- Embedding of `Client.CreateConnection`: POST /v1/databases/(databaseID)/connections. -/
def Client.createConnection (c : Client) (databaseID name : String)
    (decode : String → Option ConnectionResponse) (outcome : HttpOutcome) :
    Request × Except ReqError Connection :=
  let r := doRequest c "POST" ("/v1/databases/" ++ databaseID ++ "/connections")
    (some (CreateConnectionRequest.toJson ⟨name⟩)) (some decode) outcome
  (r.1, r.2.map (fun o => (o.getD default).data))

/-- Embedding of `Client.ListConnections`: GET /v1/databases/(databaseID)/connections,
returning `resp.Data`. -/
def Client.listConnections (c : Client) (databaseID : String)
    (decode : String → Option ListConnectionsResponse) (outcome : HttpOutcome) :
    Request × Except ReqError (List Connection) :=
  let r := doRequest c "GET" ("/v1/databases/" ++ databaseID ++ "/connections")
    none (some decode) outcome
  (r.1, r.2.map (fun o => (o.getD default).data))

/-- Embedding of `Client.DeleteConnection`: DELETE /v1/connections/(id). -/
def Client.deleteConnection (c : Client) (id : String) (outcome : HttpOutcome) :
    Request × Except ReqError Unit :=
  let r := doRequest (α := Unit) c "DELETE" ("/v1/connections/" ++ id) none none outcome
  (r.1, r.2.map (fun _ => ()))

/-- Embedding of `Client.ListRegions`: GET /v1/regions/postgres, returning `resp.Data`. -/
def Client.listRegions (c : Client)
    (decode : String → Option ListRegionsResponse) (outcome : HttpOutcome) :
    Request × Except ReqError (List Region) :=
  let r := doRequest c "GET" "/v1/regions/postgres" none (some decode) outcome
  (r.1, r.2.map (fun o => (o.getD default).data))

/-- A Terraform error diagnostic as added by `resp.Diagnostics.AddError`:
summary and detail. -/
structure Diagnostic where
  summary : String
  detail : String
deriving Repr, DecidableEq, Inhabited

/-- Outcome of a resource `Read`: `newState = none` models
`resp.State.RemoveResource`, `newState = some s` the state left in the
response (set by `resp.State.Set`, or the incoming state untouched when the
method returned early on error). -/
structure ReadResult (σ : Type) where
  newState : Option σ
  diags : List Diagnostic
deriving Repr, DecidableEq

/-- Outcome of a resource `Update`: the state written by `resp.State.Set`
(if any), the remote calls issued, and the diagnostics added. -/
structure UpdateResult (σ : Type) where
  newState : Option σ
  remoteCalls : List Request
  diags : List Diagnostic
deriving Repr, DecidableEq

/-- Outcome of an `ImportState`: the `(attribute path, value)` pairs set by
`resp.State.SetAttribute` (in order), and the diagnostics added. -/
structure ImportResult where
  attrs : List (String × String)
  diags : List Diagnostic
deriving Repr, DecidableEq, Inhabited

/-- Embedding of `provider.ProjectResourceModel`.  Terraform `types.String` values are
modelled as plain strings (null/unknown states play no role in the
claims). -/
structure ProjectResourceModel where
  id : String
  name : String
  createdAt : String
deriving Repr, DecidableEq, Inhabited

/-- Embedding of `provider.DatabaseResourceModel`. -/
structure DatabaseResourceModel where
  id : String
  projectId : String
  name : String
  region : String
  status : String
  createdAt : String
  connectionString : String
  directUrl : String
  directHost : String
  directUser : String
  directPassword : String
deriving Repr, DecidableEq, Inhabited

/-- Embedding of `provider.ConnectionResourceModel`. -/
structure ConnectionResourceModel where
  id : String
  databaseId : String
  name : String
  createdAt : String
  connectionString : String
  host : String
  user : String
  password : String
deriving Repr, DecidableEq, Inhabited

namespace ProjectResource

/-- Embedding of `ProjectResource.Read` after the `GetProject` call returned
(`getResult`): a typed 404 `APIError` removes the resource from state; any
other error adds a fatal diagnostic and leaves the state as it was; on
success the name and creation time are refreshed and the state is set. -/
def read (state : ProjectResourceModel) (getResult : Except ReqError Project) :
    ReadResult ProjectResourceModel :=
  match getResult with
  | .error err =>
    if err.is404 then
      { newState := none, diags := [] }
    else
      { newState := some state
        diags := [⟨"Error reading project",
          "Could not read project ID " ++ state.id ++ ": " ++ err.errorString⟩] }
  | .ok project =>
    { newState := some { state with name := project.name, createdAt := project.createdAt }
      diags := [] }

/-- Embedding of `ProjectResource.Update`: unconditionally adds the "Update not
supported" diagnostic, makes no remote call and sets no state. -/
def update (_plan _state : ProjectResourceModel) : UpdateResult ProjectResourceModel :=
  { newState := none
    remoteCalls := []
    diags := [⟨"Update not supported",
      "Prisma projects cannot be updated. Changes to attributes require replacing the resource."⟩] }

/-- Embedding of `ProjectResource.Delete` after the `DeleteProject` call returned: a
typed 404 `APIError` is swallowed (already deleted); any other error adds
a fatal diagnostic. -/
def delete (state : ProjectResourceModel) (delResult : Except ReqError Unit) :
    List Diagnostic :=
  match delResult with
  | .ok _ => []
  | .error err =>
    if err.is404 then []
    else [⟨"Error deleting project",
      "Could not delete project ID " ++ state.id ++ ": " ++ err.errorString⟩]

/-- Embedding of `ProjectResource.ImportState`: `resource.ImportStatePassthroughID`
writes the raw import identifier into the `id` attribute. -/
def importState (reqId : String) : ImportResult :=
  { attrs := [("id", reqId)], diags := [] }

end ProjectResource

namespace DatabaseResource

/-- The `region` attribute of `DatabaseResource.Schema`: optional,
computed, with the provider-declared static default
`stringdefault.StaticString("us-east-1")`. -/
structure RegionAttributeSchema where
  optionalAttr : Bool
  computed : Bool
  defaultValue : Option String
deriving Repr, DecidableEq

/-- The schema entry for `region` exactly as declared in client.go lines
470–478. -/
def regionAttribute : RegionAttributeSchema :=
  { optionalAttr := true, computed := true, defaultValue := some "us-east-1" }

/-- Embedding of `DatabaseResource.Read` after the `GetDatabase` call returned: a typed
404 removes the resource from state; any other error is fatal and leaves
the state as it was; on success name, status, creation time and — when the
response carries them — project and region are refreshed (credentials are
never touched: they are only returned on create). -/
def read (state : DatabaseResourceModel) (getResult : Except ReqError Database) :
    ReadResult DatabaseResourceModel :=
  match getResult with
  | .error err =>
    if err.is404 then
      { newState := none, diags := [] }
    else
      { newState := some state
        diags := [⟨"Error reading database",
          "Could not read database ID " ++ state.id ++ ": " ++ err.errorString⟩] }
  | .ok database =>
    let s1 := { state with
      name := database.name, status := database.status, createdAt := database.createdAt }
    let s2 := match database.project with
      | some p => { s1 with projectId := p.id }
      | none => s1
    let s3 := match database.region with
      | some r => { s2 with region := r.id }
      | none => s2
    { newState := some s3, diags := [] }

/-- Embedding of `DatabaseResource.Update`: unconditionally rejects. -/
def update (_plan _state : DatabaseResourceModel) : UpdateResult DatabaseResourceModel :=
  { newState := none
    remoteCalls := []
    diags := [⟨"Update not supported",
      "Prisma databases cannot be updated. Changes to attributes require replacing the resource."⟩] }

/-- Embedding of `DatabaseResource.Delete` after the `DeleteDatabase` call returned. -/
def delete (state : DatabaseResourceModel) (delResult : Except ReqError Unit) :
    List Diagnostic :=
  match delResult with
  | .ok _ => []
  | .error err =>
    if err.is404 then []
    else [⟨"Error deleting database",
      "Could not delete database ID " ++ state.id ++ ": " ++ err.errorString⟩]

/-- Embedding of `DatabaseResource.ImportState`: plain passthrough of the identifier
into `id`. -/
def importState (reqId : String) : ImportResult :=
  { attrs := [("id", reqId)], diags := [] }

end DatabaseResource

namespace ConnectionResource

/-- Embedding of `ConnectionResource.Read` after the `ListConnections` call returned:
a typed 404 (database gone) removes the connection from state; any other
error is fatal and leaves the state as it was; on success the returned
list is scanned for the stored connection ID — the first match refreshes
name and creation time, and no match removes the resource from state. -/
def read (state : ConnectionResourceModel) (listResult : Except ReqError (List Connection)) :
    ReadResult ConnectionResourceModel :=
  match listResult with
  | .error err =>
    if err.is404 then
      { newState := none, diags := [] }
    else
      { newState := some state
        diags := [⟨"Error reading connection",
          "Could not list connections for database " ++ state.databaseId ++ ": " ++ err.errorString⟩] }
  | .ok connections =>
    match connections.find? (fun conn => conn.id == state.id) with
    | some conn =>
      { newState := some { state with name := conn.name, createdAt := conn.createdAt }
        diags := [] }
    | none =>
      { newState := none, diags := [] }

/-- Embedding of `ConnectionResource.Update`: unconditionally rejects. -/
def update (_plan _state : ConnectionResourceModel) : UpdateResult ConnectionResourceModel :=
  { newState := none
    remoteCalls := []
    diags := [⟨"Update not supported",
      "Prisma connections cannot be updated. Changes to attributes require replacing the resource."⟩] }

/-- Embedding of `ConnectionResource.Delete` after the `DeleteConnection` call
returned. -/
def delete (state : ConnectionResourceModel) (delResult : Except ReqError Unit) :
    List Diagnostic :=
  match delResult with
  | .ok _ => []
  | .error err =>
    if err.is404 then []
    else [⟨"Error deleting connection",
      "Could not delete connection ID " ++ state.id ++ ": " ++ err.errorString⟩]

/-- Go `strings.Split(s, ",")`: split on every comma, keeping empty parts
(modelled on the character list; for a one-character separator this is
exactly Go's behaviour). -/
def splitComma (s : String) : List String :=
  (s.toList.splitOn ',').map (fun l => String.mk l)

/-- Embedding of `ConnectionResource.ImportState`: splits the identifier on "," (Go
`strings.Split`); anything but exactly two non-empty parts is rejected
with no attribute set, otherwise `database_id` gets the first part and
`id` the second. -/
def importState (reqId : String) : ImportResult :=
  let idParts := splitComma reqId
  match idParts with
  | [p0, p1] =>
    if p0 = "" || p1 = "" then
      { attrs := []
        diags := [⟨"Unexpected Import Identifier",
          "Expected import identifier with format: database_id,connection_id. Got: \"" ++ reqId ++ "\""⟩] }
    else
      { attrs := [("database_id", p0), ("id", p1)], diags := [] }
  | _ =>
    { attrs := []
      diags := [⟨"Unexpected Import Identifier",
        "Expected import identifier with format: database_id,connection_id. Got: \"" ++ reqId ++ "\""⟩] }

end ConnectionResource

/-- Embedding of `provider.RegionModel` of the regions data source. -/
structure RegionModel where
  id : String
  name : String
  status : String
deriving Repr, DecidableEq, Inhabited

namespace RegionsDataSource

/-- The state-building loop of `RegionsDataSource.Read` (after a
successful `ListRegions` call): `for _, region := range regions` appending
one `RegionModel` per region, in order. -/
def readModels (regions : List Region) : List RegionModel :=
  regions.foldl (fun acc region => acc ++ [⟨region.id, region.name, region.status⟩]) []

end RegionsDataSource

/-- The mock server's create-database handler
(`mockAPIServer.SetupDatabaseHandlers` in the provider test file): this is
the repository's own model of the remote server, and it defaults an empty
`region` in the request to "us-east-1" before building the response. -/
def mockCreateDatabase (req : CreateDatabaseRequest) : Database :=
  let region := if req.region = "" then "us-east-1" else req.region
  { id := "db_test456"
    type := "database"
    name := req.name
    status := "ready"
    createdAt := "2025-01-07T00:00:00Z"
    isDefault := false
    project := none
    region := some { id := region, type := "", name := "Test Region", status := "" }
    apiKeys := []
    connectionString := "prisma://accelerate.prisma-data.net/?api_key=test_key"
    directConnection :=
      some { host := region ++ ".db.prisma-data.net", pass := "test_password", user := "prisma_user" } }

section Theorems

variable {α β : Type}

/-- Helper: on a delivered response with status at least 400, `doRequest`
returns the structured `APIError` built from that response. -/
theorem doRequest_ge400 (c : Client) (method path : String) (body : Option String)
    (result : Option (String → Option α)) (resp : HttpResponse)
    (hge : 400 ≤ resp.statusCode) :
    (doRequest c method path body result (.success resp)).2
      = .error (.apiError resp.statusCode (statusText resp.statusCode) resp.body) := by
  simp [doRequest, ge_iff_le, hge]

/-- Helper: a structured `APIError` result can only come from a delivered
response of status at least 400, and it copies that response's fields. -/
theorem doRequest_apiError_inv (c : Client) (method path : String) (body : Option String)
    (result : Option (String → Option α)) (outcome : HttpOutcome)
    (sc : Nat) (msg b : String)
    (h : (doRequest c method path body result outcome).2 = .error (.apiError sc msg b)) :
    ∃ resp : HttpResponse, outcome = .success resp ∧ 400 ≤ resp.statusCode ∧
      sc = resp.statusCode ∧ msg = statusText resp.statusCode ∧ b = resp.body := by
  cases outcome with
  | transportFailure m => simp [doRequest] at h
  | readFailure m => simp [doRequest] at h
  | success resp =>
    refine ⟨resp, rfl, ?_⟩
    by_cases hge : 400 ≤ resp.statusCode
    · simp [doRequest, ge_iff_le, hge] at h
      exact ⟨hge, h.1.symm, h.2.1.symm, h.2.2.symm⟩
    · exfalso
      simp [doRequest, ge_iff_le, hge] at h
      cases result with
      | none => simp at h
      | some decode =>
        by_cases hb : resp.body.length > 0
        · simp [hb] at h
          cases hd : decode resp.body with
          | none => simp [hd] at h
          | some v => simp [hd] at h
        · simp [hb] at h

/-- C1: every HTTP response with status at least 400 makes `doRequest` — and
hence every client operation, which propagates `doRequest`'s error
unchanged — return the structured `APIError` carrying the response's status
code, its `http.StatusText` message, and the raw body; conversely an
`APIError` result only ever arises from a delivered response with status at
least 400, so no response below 400 produces one. -/
theorem c1_apiError_iff_status_ge_400 (c : Client)
    (method path name projectID databaseID id region : String)
    (body : Option String) (result : Option (String → Option α)) (createDb : Bool)
    (decP : String → Option ProjectResponse) (decD : String → Option DatabaseResponse)
    (decC : String → Option ConnectionResponse)
    (decLC : String → Option ListConnectionsResponse)
    (decLR : String → Option ListRegionsResponse)
    (outcome : HttpOutcome) (resp : HttpResponse) :
    (outcome = .success resp → 400 ≤ resp.statusCode →
      ((doRequest c method path body result outcome).2
          = .error (.apiError resp.statusCode (statusText resp.statusCode) resp.body) ∧
        (c.createProject name createDb decP outcome).2
          = .error (.apiError resp.statusCode (statusText resp.statusCode) resp.body) ∧
        (c.getProject id decP outcome).2
          = .error (.apiError resp.statusCode (statusText resp.statusCode) resp.body) ∧
        (c.deleteProject id outcome).2
          = .error (.apiError resp.statusCode (statusText resp.statusCode) resp.body) ∧
        (c.createDatabase projectID name region decD outcome).2
          = .error (.apiError resp.statusCode (statusText resp.statusCode) resp.body) ∧
        (c.getDatabase id decD outcome).2
          = .error (.apiError resp.statusCode (statusText resp.statusCode) resp.body) ∧
        (c.deleteDatabase id outcome).2
          = .error (.apiError resp.statusCode (statusText resp.statusCode) resp.body) ∧
        (c.createConnection databaseID name decC outcome).2
          = .error (.apiError resp.statusCode (statusText resp.statusCode) resp.body) ∧
        (c.listConnections databaseID decLC outcome).2
          = .error (.apiError resp.statusCode (statusText resp.statusCode) resp.body) ∧
        (c.deleteConnection id outcome).2
          = .error (.apiError resp.statusCode (statusText resp.statusCode) resp.body) ∧
        (c.listRegions decLR outcome).2
          = .error (.apiError resp.statusCode (statusText resp.statusCode) resp.body))) ∧
    (∀ sc msg b, (doRequest c method path body result outcome).2 = .error (.apiError sc msg b) →
      ∃ r : HttpResponse, outcome = .success r ∧ 400 ≤ r.statusCode ∧
        sc = r.statusCode ∧ msg = statusText r.statusCode ∧ b = r.body) := by
  constructor
  · intro heq hge
    subst heq
    refine ⟨doRequest_ge400 c method path body result resp hge, ?_⟩
    repeat' constructor
    all_goals
      simp only [Client.createProject, Client.getProject, Client.deleteProject,
        Client.createDatabase, Client.getDatabase, Client.deleteDatabase,
        Client.createConnection, Client.listConnections, Client.deleteConnection,
        Client.listRegions]
    all_goals rw [doRequest_ge400 _ _ _ _ _ _ hge]
    all_goals rfl
  · intro sc msg b h
    exact doRequest_apiError_inv c method path body result outcome sc msg b h

/-- Witness for C1 at a concrete 404 response. -/
theorem c1_witness :
    (doRequest { serviceToken := "tok", userAgent := "ua", baseURL := "http://x" }
      "GET" "/v1/projects/p1" none (none : Option (String → Option Unit))
      (.success { statusCode := 404, body := "nf" })).2
      = .error (.apiError 404 "Not Found" "nf") := by
  have h := (c1_apiError_iff_status_ge_400
    { serviceToken := "tok", userAgent := "ua", baseURL := "http://x" }
    "GET" "/v1/projects/p1" "n" "p" "d" "i" "r" none
    (none : Option (String → Option Unit)) false
    (fun _ => none) (fun _ => none) (fun _ => none) (fun _ => none) (fun _ => none)
    (.success { statusCode := 404, body := "nf" })
    { statusCode := 404, body := "nf" }).1 rfl (by decide)
  exact h.1

/-- Helper: an error that is not a status-404 `APIError` fails the
provider's typed 404 check. -/
theorem is404_false_of_ne (e : ReqError) (h : ∀ m b, e ≠ .apiError 404 m b) :
    e.is404 = false := by
  cases e with
  | apiError sc m b =>
    simp only [ReqError.is404, beq_eq_false_iff_ne, ne_eq]
    intro hsc
    exact h m b (by rw [hsc])
  | transportError m => rfl
  | readError m => rfl
  | decodeError m => rfl

/-- C2: for each of the three resources, a read whose client call failed
with a status-404 `APIError` removes the resource from state and reports
no diagnostic, while any other client-call error leaves the incoming state
untouched and reports a fatal error diagnostic. -/
theorem c2_read_404_removes_others_fatal (pState : ProjectResourceModel)
    (dState : DatabaseResourceModel) (cState : ConnectionResourceModel) (e : ReqError) :
    ((∃ m b, e = .apiError 404 m b) →
      ProjectResource.read pState (.error e) = ⟨none, []⟩ ∧
      DatabaseResource.read dState (.error e) = ⟨none, []⟩ ∧
      ConnectionResource.read cState (.error e) = ⟨none, []⟩) ∧
    ((∀ m b, e ≠ .apiError 404 m b) →
      ((ProjectResource.read pState (.error e)).newState = some pState ∧
        (ProjectResource.read pState (.error e)).diags ≠ []) ∧
      ((DatabaseResource.read dState (.error e)).newState = some dState ∧
        (DatabaseResource.read dState (.error e)).diags ≠ []) ∧
      ((ConnectionResource.read cState (.error e)).newState = some cState ∧
        (ConnectionResource.read cState (.error e)).diags ≠ [])) := by
  constructor
  · rintro ⟨m, b, rfl⟩
    refine ⟨?_, ?_, ?_⟩ <;>
      simp [ProjectResource.read, DatabaseResource.read, ConnectionResource.read,
        ReqError.is404]
  · intro h
    have h404 := is404_false_of_ne e h
    refine ⟨⟨?_, ?_⟩, ⟨?_, ?_⟩, ⟨?_, ?_⟩⟩ <;>
      simp [ProjectResource.read, DatabaseResource.read, ConnectionResource.read, h404]

/-- Witness for C2: a 404 removes, a transport error is fatal. -/
theorem c2_witness :
    (ProjectResource.read { id := "p1", name := "n", createdAt := "t" }
        (.error (.apiError 404 "Not Found" "")) = ⟨none, []⟩) ∧
    (ProjectResource.read { id := "p1", name := "n", createdAt := "t" }
        (.error (.transportError "request failed: boom"))).diags ≠ [] := by
  refine ⟨?_, ?_⟩
  · exact ((c2_read_404_removes_others_fatal
      { id := "p1", name := "n", createdAt := "t" } default default
      (.apiError 404 "Not Found" "")).1 ⟨"Not Found", "", rfl⟩).1
  · exact (((c2_read_404_removes_others_fatal
      { id := "p1", name := "n", createdAt := "t" } default default
      (.transportError "request failed: boom")).2 (by intro m b h; cases h)).1).2

/-- C3: with a decode target present, a delivered response below status 400
whose non-empty body the decoder rejects produces the wrapped decode error,
a transport failure produces the wrapped transport error, and the two error
classes are distinct values for any messages — they are never conflated. -/
theorem c3_decode_error_distinct_from_transport (c : Client) (method path : String)
    (body : Option String) (decode : String → Option α) (resp : HttpResponse) :
    (∀ m, (doRequest c method path body (some decode) (.transportFailure m)).2
        = .error (.transportError ("request failed: " ++ m))) ∧
    (resp.statusCode < 400 → 0 < resp.body.length → decode resp.body = none →
      (doRequest c method path body (some decode) (.success resp)).2
        = .error (.decodeError "failed to decode response")) ∧
    (∀ m₁ m₂, ReqError.transportError m₁ ≠ ReqError.decodeError m₂) := by
  refine ⟨fun m => rfl, ?_, ?_⟩
  · intro hlt hb hdec
    have hnge : ¬ 400 ≤ resp.statusCode := Nat.not_le.mpr hlt
    simp [doRequest, ge_iff_le, hnge, hb, hdec]
  · intro m₁ m₂ h
    exact ReqError.noConfusion h

/-- Witness for C3 at a concrete malformed body. -/
theorem c3_witness :
    (doRequest { serviceToken := "tok", userAgent := "ua", baseURL := "http://x" }
      "GET" "/v1/regions/postgres" none
      (some (fun _ => (none : Option ListRegionsResponse)))
      (.success { statusCode := 200, body := "not json" })).2
      = .error (.decodeError "failed to decode response") := by
  exact ((c3_decode_error_distinct_from_transport
    { serviceToken := "tok", userAgent := "ua", baseURL := "http://x" }
    "GET" "/v1/regions/postgres" none (fun _ => (none : Option ListRegionsResponse))
    { statusCode := 200, body := "not json" }).2).1
      (by decide) (by decide) rfl

/-- Helper: whatever the network outcome, the request `doRequest` sends is
the one built by `buildRequest`. -/
theorem doRequest_fst (c : Client) (method path : String) (body : Option String)
    (result : Option (String → Option α)) (outcome : HttpOutcome) :
    (doRequest c method path body result outcome).1 = buildRequest c method path body := by
  unfold doRequest
  cases outcome with
  | transportFailure m => rfl
  | readFailure m => rfl
  | success resp =>
    dsimp only
    split
    · rfl
    · cases result with
      | none => rfl
      | some decode =>
        dsimp only
        split
        · cases h : decode resp.body <;> simp [h]
        · rfl

/-- The exact header list every request carries. -/
def expectedHeaders (c : Client) : List (String × String) :=
  [("Authorization", "Bearer " ++ c.serviceToken),
   ("Content-Type", "application/json"),
   ("Accept", "application/json"),
   ("User-Agent", c.userAgent)]

/-- C4: the request built for any method, path and body carries exactly the
four headers Authorization (`Bearer` plus the service token), Content-Type
(application/json), Accept (application/json) and User-Agent (the
configured string) — no more and no fewer — and so does the request sent by
each of the ten client operations, for every input and network outcome. -/
theorem c4_headers_exactly_four (c : Client)
    (name projectID databaseID id region : String) (createDb : Bool)
    (decP : String → Option ProjectResponse) (decD : String → Option DatabaseResponse)
    (decC : String → Option ConnectionResponse)
    (decLC : String → Option ListConnectionsResponse)
    (decLR : String → Option ListRegionsResponse) (outcome : HttpOutcome) :
    (∀ (method path : String) (body : Option String),
      (buildRequest c method path body).headers = expectedHeaders c) ∧
    (c.createProject name createDb decP outcome).1.headers = expectedHeaders c ∧
    (c.getProject id decP outcome).1.headers = expectedHeaders c ∧
    (c.deleteProject id outcome).1.headers = expectedHeaders c ∧
    (c.createDatabase projectID name region decD outcome).1.headers = expectedHeaders c ∧
    (c.getDatabase id decD outcome).1.headers = expectedHeaders c ∧
    (c.deleteDatabase id outcome).1.headers = expectedHeaders c ∧
    (c.createConnection databaseID name decC outcome).1.headers = expectedHeaders c ∧
    (c.listConnections databaseID decLC outcome).1.headers = expectedHeaders c ∧
    (c.deleteConnection id outcome).1.headers = expectedHeaders c ∧
    (c.listRegions decLR outcome).1.headers = expectedHeaders c := by
  have hhdr : ∀ (method path : String) (body : Option String),
      (buildRequest c method path body).headers = expectedHeaders c := by
    intro method path body
    rfl
  refine ⟨hhdr, ?_, ?_, ?_, ?_, ?_, ?_, ?_, ?_, ?_, ?_⟩ <;>
    simp only [Client.createProject, Client.getProject, Client.deleteProject,
      Client.createDatabase, Client.getDatabase, Client.deleteDatabase,
      Client.createConnection, Client.listConnections, Client.deleteConnection,
      Client.listRegions, doRequest_fst] <;>
    exact hhdr _ _ _

/-- C5 counterexample: the claim says the program itself performs no region
defaulting, but the database resource schema declares the static
provider-side default "us-east-1" for the `region` attribute
(`stringdefault.StaticString("us-east-1")`), so the default is not supplied
only remotely. -/
theorem c5_counterexample :
    DatabaseResource.regionAttribute.defaultValue ≠ none ∧
    DatabaseResource.regionAttribute.defaultValue = some "us-east-1" := by
  exact ⟨by simp [DatabaseResource.regionAttribute], rfl⟩

/-- C5 (amended): with an empty region string the marshalled create-database
body omits the `region` field (`omitempty`) while a non-empty region is
included; the repository's own model of the server (the mock create-database
handler) defaults an absent/empty region to "us-east-1"; and the client's
`CreateDatabase` request body likewise omits the field for an empty region —
but the provider schema additionally declares its own static default
"us-east-1" for the `region` attribute, so region defaulting is not purely
remote. -/
theorem c5_region_omitempty_and_default (name : String) (isDefault : Bool)
    (req : CreateDatabaseRequest) :
    (CreateDatabaseRequest.toJson ⟨name, "", isDefault⟩
        = "\x7b\"name\":" ++ jsonQuote name ++ ",\"isDefault\":" ++ jsonBool isDefault ++ "\x7d") ∧
    (∀ r : String, r ≠ "" → CreateDatabaseRequest.toJson ⟨name, r, isDefault⟩
        = "\x7b\"name\":" ++ jsonQuote name ++ ",\"region\":" ++ jsonQuote r
            ++ ",\"isDefault\":" ++ jsonBool isDefault ++ "\x7d") ∧
    (req.region = "" →
      (mockCreateDatabase req).region
        = some { id := "us-east-1", type := "", name := "Test Region", status := "" }) ∧
    (∀ (c : Client) (projectID : String) (dec : String → Option DatabaseResponse)
        (outcome : HttpOutcome),
      (c.createDatabase projectID name "" dec outcome).1.body
        = some ("\x7b\"name\":" ++ jsonQuote name ++ ",\"isDefault\":false\x7d")) ∧
    DatabaseResource.regionAttribute.defaultValue = some "us-east-1" := by
  refine ⟨?_, ?_, ?_, ?_, rfl⟩
  · simp [CreateDatabaseRequest.toJson]
  · intro r hr
    simp [CreateDatabaseRequest.toJson, hr, String.append_assoc]
  · intro h
    simp [mockCreateDatabase, h]
  · intro c projectID dec outcome
    simp only [Client.createDatabase, doRequest_fst, buildRequest]
    simp [CreateDatabaseRequest.toJson, jsonBool, String.append_assoc]

/-- Witness for C5 at a concrete request with empty region. -/
theorem c5_witness :
    (mockCreateDatabase { name := "db", region := "", isDefault := false }).region
      = some { id := "us-east-1", type := "", name := "Test Region", status := "" } ∧
    CreateDatabaseRequest.toJson { name := "db", region := "us-west-1", isDefault := false }
      = "\x7b\"name\":\"db\",\"region\":\"us-west-1\",\"isDefault\":false\x7d" := by
  refine ⟨?_, ?_⟩
  · exact (c5_region_omitempty_and_default "db" false
      { name := "db", region := "", isDefault := false }).2.2.1 rfl
  · have h := ((c5_region_omitempty_and_default "db" false
      { name := "db", region := "", isDefault := false }).2.1) "us-west-1" (by decide)
    rw [h]
    rfl

/-- C6: for every resource type and every plan/state pair, Update makes no
remote call, writes no state, and reports exactly the one fatal "Update not
supported" diagnostic — so in-place modification is always rejected and any
attribute change must go through destroy and recreate. -/
theorem c6_update_always_rejected (pPlan pState : ProjectResourceModel)
    (dPlan dState : DatabaseResourceModel) (cPlan cState : ConnectionResourceModel) :
    ProjectResource.update pPlan pState
      = { newState := none, remoteCalls := [],
          diags := [⟨"Update not supported",
            "Prisma projects cannot be updated. Changes to attributes require replacing the resource."⟩] } ∧
    DatabaseResource.update dPlan dState
      = { newState := none, remoteCalls := [],
          diags := [⟨"Update not supported",
            "Prisma databases cannot be updated. Changes to attributes require replacing the resource."⟩] } ∧
    ConnectionResource.update cPlan cState
      = { newState := none, remoteCalls := [],
          diags := [⟨"Update not supported",
            "Prisma connections cannot be updated. Changes to attributes require replacing the resource."⟩] } := by
  exact ⟨rfl, rfl, rfl⟩

/-- C7: project and database import are a plain passthrough of the
identifier into `id` with no diagnostic, while connection import sets
`database_id` and `id` from the two comma-separated parts exactly when the
split yields two non-empty parts, and otherwise sets no attribute and
reports the "Unexpected Import Identifier" error. -/
theorem c7_import_identifiers (s p0 p1 : String) :
    ProjectResource.importState s = { attrs := [("id", s)], diags := [] } ∧
    DatabaseResource.importState s = { attrs := [("id", s)], diags := [] } ∧
    (ConnectionResource.splitComma s = [p0, p1] → p0 ≠ "" → p1 ≠ "" →
      ConnectionResource.importState s
        = { attrs := [("database_id", p0), ("id", p1)], diags := [] }) ∧
    ((∀ q0 q1, ConnectionResource.splitComma s = [q0, q1] → q0 = "" ∨ q1 = "") →
      (ConnectionResource.importState s).attrs = [] ∧
      (ConnectionResource.importState s).diags ≠ []) := by
  refine ⟨rfl, rfl, ?_, ?_⟩
  · intro hsplit h0 h1
    simp [ConnectionResource.importState, hsplit, h0, h1]
  · intro h
    unfold ConnectionResource.importState
    cases hsplit : ConnectionResource.splitComma s with
    | nil => simp
    | cons a t =>
      cases t with
      | nil => simp
      | cons b t2 =>
        cases t2 with
        | nil =>
          have hab := h a b hsplit
          by_cases ha : a = ""
          · simp [ha]
          · have hb : b = "" := by
              cases hab with
              | inl h' => exact absurd h' ha
              | inr h' => exact h'
            simp [ha, hb]
        | cons d t3 => simp

/-- Witness for C7 at a concrete composite identifier and a malformed one. -/
theorem c7_witness :
    ConnectionResource.importState "db_test456,conn_test789"
      = { attrs := [("database_id", "db_test456"), ("id", "conn_test789")], diags := [] } ∧
    (ConnectionResource.importState "justoneid").attrs = [] ∧
    (ConnectionResource.importState "justoneid").diags ≠ [] := by
  have hbad : ∀ q0 q1, ConnectionResource.splitComma "justoneid" = [q0, q1] → q0 = "" ∨ q1 = "" := by
    intro q0 q1 hq
    rw [show ConnectionResource.splitComma "justoneid" = ["justoneid"] from by decide] at hq
    simp at hq
  refine ⟨?_, ?_, ?_⟩
  · exact (c7_import_identifiers "db_test456,conn_test789" "db_test456" "conn_test789").2.2.1
      (by decide) (by decide) (by decide)
  · exact ((c7_import_identifiers "justoneid" "" "").2.2.2 hbad).1
  · exact ((c7_import_identifiers "justoneid" "" "").2.2.2 hbad).2

/-- Helper: the regions state-building loop is a pure map, with its
accumulator made explicit. -/
theorem readModels_foldl_acc (regions : List Region) (acc : List RegionModel) :
    regions.foldl (fun a region => a ++ [⟨region.id, region.name, region.status⟩]) acc
      = acc ++ regions.map (fun region => (⟨region.id, region.name, region.status⟩ : RegionModel)) := by
  induction regions generalizing acc with
  | nil => simp
  | cons r t ih => simp [List.foldl_cons, ih]

/-- C8: a successful regions listing returns exactly the decoded `data`
list, and the data source turns each region into its `(id, name, status)`
model by a pure map — same length, same order, no element filtered,
reordered or added. -/
theorem c8_regions_verbatim_in_order (c : Client)
    (dec : String → Option ListRegionsResponse) (resp : HttpResponse)
    (v : ListRegionsResponse) (regions : List Region) :
    (resp.statusCode < 400 → 0 < resp.body.length → dec resp.body = some v →
      (c.listRegions dec (.success resp)).2 = .ok v.data) ∧
    RegionsDataSource.readModels regions
      = regions.map (fun region => (⟨region.id, region.name, region.status⟩ : RegionModel)) ∧
    (RegionsDataSource.readModels regions).length = regions.length := by
  refine ⟨?_, ?_, ?_⟩
  · intro hlt hb hdec
    have hnge : ¬ 400 ≤ resp.statusCode := Nat.not_le.mpr hlt
    simp [Client.listRegions, doRequest, ge_iff_le, hnge, hb, hdec, Except.map]
  · exact readModels_foldl_acc regions []
  · rw [RegionsDataSource.readModels, readModels_foldl_acc regions []]
    simp

/-- Witness for C8 at the mock server's region list. -/
theorem c8_witness :
    (Client.listRegions { serviceToken := "tok", userAgent := "ua", baseURL := "http://x" }
      (fun body => if body = "ok" then
          some { data := [{ id := "us-east-1", type := "", name := "US East (N. Virginia)", status := "available" },
                          { id := "us-west-1", type := "", name := "US West (N. California)", status := "available" },
                          { id := "eu-west-3", type := "", name := "Europe (Paris)", status := "available" }] }
        else none)
      (.success { statusCode := 200, body := "ok" })).2
      = .ok [{ id := "us-east-1", type := "", name := "US East (N. Virginia)", status := "available" },
             { id := "us-west-1", type := "", name := "US West (N. California)", status := "available" },
             { id := "eu-west-3", type := "", name := "Europe (Paris)", status := "available" }] ∧
    RegionsDataSource.readModels
        [{ id := "us-east-1", type := "", name := "US East (N. Virginia)", status := "available" },
         { id := "eu-west-3", type := "", name := "Europe (Paris)", status := "available" }]
      = [{ id := "us-east-1", name := "US East (N. Virginia)", status := "available" },
         { id := "eu-west-3", name := "Europe (Paris)", status := "available" }] := by
  constructor
  · exact (c8_regions_verbatim_in_order
      { serviceToken := "tok", userAgent := "ua", baseURL := "http://x" }
      (fun body => if body = "ok" then
          some { data := [{ id := "us-east-1", type := "", name := "US East (N. Virginia)", status := "available" },
                          { id := "us-west-1", type := "", name := "US West (N. California)", status := "available" },
                          { id := "eu-west-3", type := "", name := "Europe (Paris)", status := "available" }] }
        else none)
      { statusCode := 200, body := "ok" }
      { data := [{ id := "us-east-1", type := "", name := "US East (N. Virginia)", status := "available" },
                 { id := "us-west-1", type := "", name := "US West (N. California)", status := "available" },
                 { id := "eu-west-3", type := "", name := "Europe (Paris)", status := "available" }] }
      []).1 (by decide) (by decide) (by simp)
  · rw [(c8_regions_verbatim_in_order
      { serviceToken := "tok", userAgent := "ua", baseURL := "http://x" }
      (fun _ => none) { statusCode := 200, body := "ok" } default
      [{ id := "us-east-1", type := "", name := "US East (N. Virginia)", status := "available" },
       { id := "eu-west-3", type := "", name := "Europe (Paris)", status := "available" }]).2.1]
    rfl

/-- C9: the connection read removes the resource from state, with no
diagnostic, not only on a 404 from the list call but also when the list
call succeeds and no returned connection carries the stored ID — a 200
response that merely omits the connection gives exactly the same silent
state removal as a 404. -/
theorem c9_connection_read_missing_removes (state : ConnectionResourceModel)
    (conns : List Connection) (m b : String) :
    ((∀ conn ∈ conns, conn.id ≠ state.id) →
      ConnectionResource.read state (.ok conns) = ⟨none, []⟩) ∧
    ConnectionResource.read state (.error (.apiError 404 m b)) = ⟨none, []⟩ := by
  constructor
  · intro h
    have hf : conns.find? (fun conn => conn.id == state.id) = none := by
      rw [List.find?_eq_none]
      intro x hx
      simp only [beq_iff_eq]
      exact h x hx
    simp [ConnectionResource.read, hf]
  · simp [ConnectionResource.read, ReqError.is404]

/-- Witness for C9: a successful list not containing the stored ID removes
the connection just like a 404 does. -/
theorem c9_witness :
    ConnectionResource.read
        { id := "conn_test789", databaseId := "db_test456", name := "n", createdAt := "t",
          connectionString := "cs", host := "h", user := "u", password := "p" }
        (.ok [{ id := "conn_other", type := "connection", name := "x", createdAt := "t2",
                database := none, connectionString := "", host := "", user := "", pass := "" }])
      = ⟨none, []⟩ ∧
    ConnectionResource.read
        { id := "conn_test789", databaseId := "db_test456", name := "n", createdAt := "t",
          connectionString := "cs", host := "h", user := "u", password := "p" }
        (.error (.apiError 404 "Not Found" "")) = ⟨none, []⟩ := by
  constructor
  · exact (c9_connection_read_missing_removes
      { id := "conn_test789", databaseId := "db_test456", name := "n", createdAt := "t",
        connectionString := "cs", host := "h", user := "u", password := "p" }
      [{ id := "conn_other", type := "connection", name := "x", createdAt := "t2",
         database := none, connectionString := "", host := "", user := "", pass := "" }]
      "Not Found" "").1 (by decide)
  · exact (c9_connection_read_missing_removes
      { id := "conn_test789", databaseId := "db_test456", name := "n", createdAt := "t",
        connectionString := "cs", host := "h", user := "u", password := "p" }
      [] "Not Found" "").2

/-- C10: for every resource type, a delete whose remote call failed with a
status-404 `APIError` is treated as already deleted and reports no
diagnostic (exactly like a successful delete), while any other error from
the delete call is reported as a fatal diagnostic. -/
theorem c10_delete_404_tolerant (pState : ProjectResourceModel)
    (dState : DatabaseResourceModel) (cState : ConnectionResourceModel) (e : ReqError) :
    ((∃ m b, e = .apiError 404 m b) →
      ProjectResource.delete pState (.error e) = [] ∧
      DatabaseResource.delete dState (.error e) = [] ∧
      ConnectionResource.delete cState (.error e) = []) ∧
    ((∀ m b, e ≠ .apiError 404 m b) →
      ProjectResource.delete pState (.error e) ≠ [] ∧
      DatabaseResource.delete dState (.error e) ≠ [] ∧
      ConnectionResource.delete cState (.error e) ≠ []) ∧
    (ProjectResource.delete pState (.ok ()) = [] ∧
      DatabaseResource.delete dState (.ok ()) = [] ∧
      ConnectionResource.delete cState (.ok ()) = []) := by
  refine ⟨?_, ?_, rfl, rfl, rfl⟩
  · rintro ⟨m, b, rfl⟩
    refine ⟨?_, ?_, ?_⟩ <;>
      simp [ProjectResource.delete, DatabaseResource.delete, ConnectionResource.delete,
        ReqError.is404]
  · intro h
    have h404 := is404_false_of_ne e h
    refine ⟨?_, ?_, ?_⟩ <;>
      simp [ProjectResource.delete, DatabaseResource.delete, ConnectionResource.delete, h404]

/-- Witness for C10: 404 swallowed, transport error fatal. -/
theorem c10_witness :
    DatabaseResource.delete default (.error (.apiError 404 "Not Found" "gone")) = [] ∧
    DatabaseResource.delete default (.error (.transportError "request failed: boom")) ≠ [] := by
  constructor
  · exact ((c10_delete_404_tolerant default default default
      (.apiError 404 "Not Found" "gone")).1 ⟨"Not Found", "gone", rfl⟩).2.1
  · exact ((c10_delete_404_tolerant default default default
      (.transportError "request failed: boom")).2.1 (by intro m b h; cases h)).2.1

end Theorems

end PrismaProvider
